import Mathlib

/-!
Shallow embedding of the Shiksha-box container control plane (`src/app.py`):
a Flask application exposing lifecycle operations (list, create, stats,
restart, stop, remove) over a Docker engine client.

The engine state is a list of containers; each HTTP handler is embedded as a
pure function from the engine state (plus, where relevant, the request body
and the engine's stats reply) to a response record and, for mutating
operations, a new engine state.  Python floats are modelled as rationals,
Python exceptions as `Except` / sum results.
-/

namespace ShikshaBox

/-- A container as known to the engine: short id, name, raw status string,
and the result of resolving its image tags.  `imageTags = none` models
`c.image.tags` raising an exception (e.g. a dangling image reference);
`some l` yields the tag list `l`. -/
structure DContainer where
  shortId : String
  name : String
  status : String
  imageTags : Option (List String)
deriving Repr, DecidableEq

/-- The engine's container store (`client.containers`). -/
structure Engine where
  containers : List DContainer
deriving Repr, DecidableEq

/-- `client.containers.list(all=True)`: every container, stopped ones
included. -/
def Engine.listAll (e : Engine) : List DContainer := e.containers

/-- `client.containers.list()`: only the currently running containers. -/
def Engine.listRunning (e : Engine) : List DContainer :=
  e.containers.filter (fun c => c.status == "running")

/-- `client.containers.get(container_id)`: resolve an identifier to a
container (by short id or name); `none` models `docker.errors.NotFound`. -/
def Engine.get (e : Engine) (cid : String) : Option DContainer :=
  e.containers.find? (fun c => c.shortId == cid || c.name == cid)

/-- The Docker client exception taxonomy visible to the handlers:
`notFound` (`docker.errors.NotFound`), `apiError` (`docker.errors.APIError`
carrying the engine's explanation text), `permission` (`PermissionError`),
and `other` (any other exception, carrying its `str(e)` text). -/
inductive DockerErr where
  | notFound
  | apiError (explanation : String)
  | permission
  | other (msg : String)
deriving Repr, DecidableEq

/-- Python's `str(e)` applied to a Docker client exception. -/
def pyStr : DockerErr → String
  | .notFound => "404 Client Error: Not Found"
  | .apiError ex => "500 Server Error: " ++ ex
  | .permission => "[Errno 13] Permission denied"
  | .other m => m

/-- A JSON response as the handlers build it: Flask's default HTTP status is
200, and only the fields the handler actually sets are present. -/
structure Resp where
  httpStatus : Nat := 200
  success : Bool
  error : Option String := none
  message : Option String := none
  cpu : Option ℚ := none
  memory : Option ℚ := none
  id : Option String := none
  name : Option String := none
  port : Option Nat := none
  url : Option String := none
deriving Repr, DecidableEq

/-- `needle` occurs as a contiguous substring of `hay`. -/
def containsStr (needle hay : String) : Prop :=
  needle.data <:+: hay.data

instance (n h : String) : Decidable (containsStr n h) := by
  unfold containsStr; infer_instance

/-! ## Metrics Translator (`container_stats`, lines 65–76) -/

/-- One raw stats snapshot as returned by `container.stats(stream=False)`:
cumulative counters for the current and previous ("precpu") sample, the
optional per-CPU usage breakdown, and the memory usage in bytes. -/
structure StatsSnapshot where
  cpuTotalUsage : ℕ
  precpuTotalUsage : ℕ
  systemCpuUsage : ℕ
  presystemCpuUsage : ℕ
  percpuUsage : Option (List ℕ)
  memoryUsage : ℕ
deriving Repr, DecidableEq

/-- `cpu_delta = stats[cpu_stats][cpu_usage][total_usage] -
stats[precpu_stats][cpu_usage][total_usage]` (Python int subtraction). -/
def cpuDelta (s : StatsSnapshot) : ℤ :=
  (s.cpuTotalUsage : ℤ) - (s.precpuTotalUsage : ℤ)

/-- `system_delta = stats[cpu_stats][system_cpu_usage] -
stats[precpu_stats][system_cpu_usage]`. -/
def systemDelta (s : StatsSnapshot) : ℤ :=
  (s.systemCpuUsage : ℤ) - (s.presystemCpuUsage : ℤ)

/-- `num_cpus = len(stats[cpu_stats][cpu_usage].get(percpu_usage, [])) or 1`:
the length of the per-CPU list, or 1 when the list is absent or empty. -/
def numCpus (s : StatsSnapshot) : ℕ :=
  let n := (s.percpuUsage.getD []).length
  if n = 0 then 1 else n

/-- `cpu_percent = (cpu_delta / system_delta) * num_cpus * 100.0
if system_delta > 0 and cpu_delta > 0 else 0.0`. -/
def cpu_percent (s : StatsSnapshot) : ℚ :=
  if systemDelta s > 0 ∧ cpuDelta s > 0 then
    ((cpuDelta s : ℚ) / (systemDelta s : ℚ)) * (numCpus s : ℚ) * 100
  else 0

/-- `mem_usage = stats[memory_stats][usage] / 1024 ** 2`. -/
def mem_usage (s : StatsSnapshot) : ℚ :=
  (s.memoryUsage : ℚ) / 1024 ^ 2

/-- Round-half-to-even to an integer, as Python's `round` does. -/
def roundHalfEven (x : ℚ) : ℤ :=
  let f := ⌊x⌋
  let r := x - (f : ℚ)
  if r < 1/2 then f
  else if 1/2 < r then f + 1
  else if f % 2 = 0 then f else f + 1

/-- Python's `round(x, 2)`: round to 2 decimal places. -/
def round2 (x : ℚ) : ℚ := (roundHalfEven (x * 100) : ℚ) / 100

/-- The `GET /container_stats/<id>` handler: resolve the container, take one
snapshot (the engine's reply is `stats cid`), report rounded cpu and memory;
any exception is translated to `{'success': False, 'error': str(e)}`. -/
def container_stats (e : Engine) (stats : String → StatsSnapshot)
    (cid : String) : Resp :=
  match e.get cid with
  | none => { success := false, error := some (pyStr .notFound) }
  | some _ =>
      let s := stats cid
      { success := true
        cpu := some (round2 (cpu_percent s))
        memory := some (round2 (mem_usage s)) }

/-! ## State Normalizer / restart (`restart_container`, lines 82–112) -/

/-- The corrective engine call the restart handler can issue. -/
inductive Action where
  | start
  | restart
deriving Repr, DecidableEq

/-- The client-side container object: the engine-truth record plus the
object's possibly stale cached `status` attribute. -/
structure ContainerObj where
  record : DContainer
  cachedStatus : String
deriving Repr, DecidableEq

/-- `container.reload()`: refresh the object's cached status from the
engine's live state. -/
def ContainerObj.reload (o : ContainerObj) : ContainerObj :=
  { o with cachedStatus := o.record.status }

/-- Lines 87–101: reload, then dispatch on the (now fresh) status — exited
starts, running restarts, paused/created start ("resumed"), anything else
starts (fallback).  Returns the engine call issued and the message. -/
def restart_decide (o : ContainerObj) : Action × String :=
  let o := o.reload
  if o.cachedStatus = "exited" then
    (Action.start, "Container " ++ o.record.name ++ " started successfully.")
  else if o.cachedStatus = "running" then
    (Action.restart, "Container " ++ o.record.name ++ " restarted successfully.")
  else if o.cachedStatus = "paused" ∨ o.cachedStatus = "created" then
    (Action.start, "Container " ++ o.record.name ++ " resumed successfully.")
  else
    (Action.start, "Container " ++ o.record.name ++ " started.")

/-- Lines 105–112: the restart handler's `except` clauses, in source order —
`NotFound` → 404 with fixed text, `APIError` → the engine's explanation text,
`PermissionError` → fixed text, anything else → `str(e)`. -/
def restart_error_response : DockerErr → Resp
  | .notFound =>
      { httpStatus := 404, success := false
        error := some "Container not found. Please refresh list." }
  | .apiError ex =>
      { success := false, error := some ("Docker API error: " ++ ex) }
  | .permission =>
      { success := false
        error := some "Permission denied to access Docker socket." }
  | .other m => { success := false, error := some m }

/-- The `POST /restart_container/<id>` handler: resolve the id (a failure is
translated by `restart_error_response`), reload, decide, issue the action.
Returns the response and the engine call issued (`none` when no call was
made). -/
def restart_container (e : Engine) (cid : String) : Resp × Option Action :=
  match e.get cid with
  | none => (restart_error_response .notFound, none)
  | some c =>
      let (a, msg) := restart_decide ⟨c, c.status⟩
      ({ success := true, message := some msg }, some a)

/-! ## Port/Name Allocator and create (`start_container`, lines 31–55) -/

/-- A parsed request body for `POST /start_container`: either a JSON object
(with optional `name` and `port` fields) or some non-object JSON value. -/
inductive ReqBody where
  | obj (name : Option String) (port : Option Nat)
  | nonObj
deriving Repr, DecidableEq

/-- Modelled from the spec (§4.4 create): the external engine's
`containers.run` call — not part of `src/` — which fails on any engine-side
error such as a name collision, and otherwise appends a new running
container with the engine-assigned id `newId`. -/
def Engine.engineRun (e : Engine) (nm : String) (newId : String) :
    Except DockerErr (Engine × DContainer) :=
  if e.containers.any (fun c => c.name == nm) then
    .error (.apiError ("Conflict. The container name \x7b" ++ nm ++ "\x7d is already in use"))
  else
    let c : DContainer :=
      { shortId := newId, name := nm, status := "running"
        imageTags := some ["wettyoss/wetty:latest"] }
    .ok (⟨e.containers ++ [c]⟩, c)

/-- Line 34: `data.get('name', f'student_{len(client.containers.list(all=True)) + 1}')` —
the requested name, or `student_` followed by the count of all containers
(stopped ones included) plus one. -/
def allocated_name (e : Engine) (requested : Option String) : String :=
  requested.getD ("student_" ++ toString (e.listAll.length + 1))

/-- Line 35: `port = 5050 + len(client.containers.list())` — 5050 plus the
count of currently running containers. -/
def allocated_port (e : Engine) : Nat :=
  5050 + e.listRunning.length

/-- The `POST /start_container` handler.  Lines 33–35 run before the
`try`, so a body that is absent or not a JSON object makes `data.get`
raise an unhandled exception (`.error ()`); only the engine call inside the
`try` is translated to `{'success': False, 'error': str(e)}`. -/
def start_container (e : Engine) (newId : String) (body : Option ReqBody) :
    Except Unit (Engine × Resp) :=
  match body with
  | some (.obj reqName _reqPort) =>
      let nm := allocated_name e reqName
      let port := allocated_port e
      match e.engineRun nm newId with
      | .ok (e', c) =>
          .ok (e', { success := true, id := some c.shortId, name := some nm
                     port := some port
                     url := some ("http://localhost:" ++ toString port) })
      | .error err =>
          .ok (e, { success := false, error := some (pyStr err) })
  | _ => .error ()

/-! ## Lifecycle Manager: list, stop, remove -/

/-- One entry of the `GET /containers` listing. -/
structure ContainerEntry where
  id : String
  name : String
  status : String
  image : String
deriving Repr, DecidableEq

/-- Lines 16–19: `c.image.tags[0] if c.image.tags else 'untagged'` inside a
`try`, with `'unknown'` as the fallback when tag resolution raises. -/
def imageName (c : DContainer) : String :=
  match c.imageTags with
  | none => "unknown"
  | some [] => "untagged"
  | some (t :: _) => t

/-- The `GET /containers` handler: one entry per container (stopped ones
included), each with its display image resolved per `imageName`. -/
def list_containers (e : Engine) : List ContainerEntry :=
  e.listAll.map (fun c => ⟨c.shortId, c.name, c.status, imageName c⟩)

/-- Modelled from the spec (§4.4 stop): the external engine's stop call,
which sets the container's status to exited; stopping an already stopped
container succeeds as a no-op. -/
def Engine.engineStop (e : Engine) (sid : String) : Engine :=
  ⟨e.containers.map (fun x => if x.shortId == sid then { x with status := "exited" } else x)⟩

/-- The `POST /stop_container/<id>` handler: any exception becomes
`{'success': False, 'error': str(e)}` with the default 200 status. -/
def stop_container (e : Engine) (cid : String) : Engine × Resp :=
  match e.get cid with
  | none => (e, { success := false, error := some (pyStr .notFound) })
  | some c =>
      (e.engineStop c.shortId,
       { success := true, message := some ("Container " ++ cid ++ " stopped") })

/-- Modelled from the spec (§4.4 remove): the external engine's remove call
on a resolved container — without `force` it refuses to remove a running
container; with `force` it removes it regardless of state. -/
def Engine.engineRemove (e : Engine) (c : DContainer) (force : Bool) :
    Except DockerErr Engine :=
  if c.status == "running" && !force then
    .error (.apiError "cannot remove a running container, stop the container before removing or force remove")
  else
    .ok ⟨e.containers.filter (fun x => !(x.shortId == c.shortId))⟩

/-- The `DELETE /remove_container/<id>` handler: resolve the id, then
`container.remove(force=True)`; any exception becomes
`{'success': False, 'error': str(e)}` with the default 200 status. -/
def remove_container (e : Engine) (cid : String) : Engine × Resp :=
  match e.get cid with
  | none => (e, { success := false, error := some (pyStr .notFound) })
  | some c =>
      match e.engineRemove c true with
      | .ok e' =>
          (e', { success := true
                 message := some ("Container " ++ cid ++ " removed") })
      | .error err =>
          (e, { success := false, error := some (pyStr err) })

/-! ## Example fixtures -/

/-- A fixture container used by the concrete witnesses. -/
def egContainer : DContainer :=
  { shortId := "abc123", name := "student_1", status := "running"
    imageTags := some ["wettyoss/wetty:latest"] }

/-- A fixture engine holding just `egContainer`. -/
def egEngine : Engine := ⟨[egContainer]⟩

/-- A fixture snapshot with `cpuDelta = 50`, `systemDelta = 500`, two
per-CPU entries and 100 MiB of memory usage. -/
def snap50 : StatsSnapshot :=
  { cpuTotalUsage := 150, precpuTotalUsage := 100
    systemCpuUsage := 1500, presystemCpuUsage := 1000
    percpuUsage := some [7, 8], memoryUsage := 104857600 }

/-- A fixture container whose image tag resolution raises. -/
def egBad : DContainer :=
  { shortId := "bad123", name := "dangling", status := "exited"
    imageTags := none }

/-- A fixture engine holding a container with an unresolvable image. -/
def egBadEngine : Engine := ⟨[egBad]⟩

/-! ## Helper lemmas -/

/-- A substring of `post` is a substring of `pre ++ post`. -/
lemma containsStr_append_left (n pre post : String) (h : containsStr n post) :
    containsStr n (pre ++ post) := by
  unfold containsStr at h ⊢
  rw [String.data_append]
  exact h.trans (List.suffix_append pre.data post.data).isInfix

/-- Every string is a substring of itself prefixed by anything. -/
lemma containsStr_suffix (pre s : String) : containsStr s (pre ++ s) := by
  unfold containsStr
  rw [String.data_append]
  exact (List.suffix_append pre.data s.data).isInfix

/-- Two strings whose head characters differ are distinct, even after the
first is extended on the right. -/
lemma append_ne_of_head_ne (pre s t : String) (c d : Char)
    (l m : List Char) (h1 : pre.data = c :: l) (h2 : t.data = d :: m)
    (hcd : c ≠ d) : pre ++ s ≠ t := by
  intro hc
  have hdata := congrArg String.data hc
  rw [String.data_append, h1, h2, List.cons_append] at hdata
  exact hcd (List.head_eq_of_cons_eq hdata)

/-! ## Claims -/

/-- C1: `computeUtilization` returns
`cpuPercent = (cpuDelta / systemDelta) * onlineCpuCount * 100.0` when
`systemDelta > 0` and `cpuDelta > 0`, and `cpuPercent = 0.0` otherwise, so
it is never negative; `onlineCpuCount` is the length of the per-CPU usage
list, or 1 when that list is absent or empty; in particular
`cpuDelta = 50`, `systemDelta = 500`, `onlineCpuCount = 2` yields `20.0`. -/
theorem claim_C1 (s : StatsSnapshot) :
    (systemDelta s > 0 ∧ cpuDelta s > 0 →
      cpu_percent s =
        ((cpuDelta s : ℚ) / (systemDelta s : ℚ)) * (numCpus s : ℚ) * 100) ∧
    (¬(systemDelta s > 0 ∧ cpuDelta s > 0) → cpu_percent s = 0) ∧
    0 ≤ cpu_percent s ∧
    (s.percpuUsage = none ∨ s.percpuUsage = some [] → numCpus s = 1) ∧
    cpu_percent snap50 = 20 := by
  refine ⟨fun h => ?_, fun h => ?_, ?_, fun h => ?_, ?_⟩
  · rw [cpu_percent, if_pos h]
  · rw [cpu_percent, if_neg h]
  · rw [cpu_percent]
    split
    · rename_i h
      have h1 : (0 : ℚ) < (systemDelta s : ℚ) := by exact_mod_cast h.1
      have h2 : (0 : ℚ) < (cpuDelta s : ℚ) := by exact_mod_cast h.2
      positivity
    · exact le_refl 0
  · rcases h with h | h <;> simp [numCpus, h]
  · norm_num [cpu_percent, cpuDelta, systemDelta, numCpus, snap50]

/-- C1 witness: the theorem applied at the fixture snapshot. -/
theorem claim_C1_witness :
    cpu_percent snap50 =
      ((cpuDelta snap50 : ℚ) / (systemDelta snap50 : ℚ)) *
        (numCpus snap50 : ℚ) * 100 :=
  (claim_C1 snap50).1 ⟨by decide, by decide⟩

/-- C6: for every stats snapshot the reported memory value is
`memoryUsageBytes / (1024*1024)` rounded to 2 decimal places (104857600
bytes yields 100.00), and the reported cpu value is the cpu percentage
rounded to 2 decimal places. -/
theorem claim_C6 (e : Engine) (stats : String → StatsSnapshot)
    (cid : String) (c : DContainer) (h : e.get cid = some c) :
    (container_stats e stats cid).memory =
      some (round2 (((stats cid).memoryUsage : ℚ) / (1024 * 1024))) ∧
    (container_stats e stats cid).cpu =
      some (round2 (cpu_percent (stats cid))) ∧
    round2 ((104857600 : ℚ) / (1024 * 1024)) = 100 := by
  refine ⟨?_, ?_, ?_⟩
  · simp only [container_stats, h]
    have : mem_usage (stats cid) =
        ((stats cid).memoryUsage : ℚ) / (1024 * 1024) := by
      rw [mem_usage]; norm_num
    rw [this]
  · simp only [container_stats, h]
  · norm_num [round2, roundHalfEven]

/-- C6 witness: the theorem applied at the fixture engine and snapshot. -/
theorem claim_C6_witness :
    (container_stats egEngine (fun _ => snap50) "abc123").memory =
      some (round2 ((104857600 : ℚ) / (1024 * 1024))) :=
  (claim_C6 egEngine (fun _ => snap50) "abc123" egContainer (by decide)).1

/-- C2: the restart decision is a total function of the live status,
re-fetched (via reload) immediately before deciding: `exited` issues start
with a message containing "started"; `running` issues restart with a
message containing "restarted"; `paused` or `created` issues start with a
message containing "resumed"; any other status issues start with a message
containing "started". -/
theorem claim_C2 (o : ContainerObj) (stale : String) :
    restart_decide o = restart_decide { o with cachedStatus := stale } ∧
    (o.record.status = "exited" →
      (restart_decide o).1 = Action.start ∧
      containsStr "started" (restart_decide o).2) ∧
    (o.record.status = "running" →
      (restart_decide o).1 = Action.restart ∧
      containsStr "restarted" (restart_decide o).2) ∧
    (o.record.status = "paused" ∨ o.record.status = "created" →
      (restart_decide o).1 = Action.start ∧
      containsStr "resumed" (restart_decide o).2) ∧
    (o.record.status ≠ "exited" ∧ o.record.status ≠ "running" ∧
     o.record.status ≠ "paused" ∧ o.record.status ≠ "created" →
      (restart_decide o).1 = Action.start ∧
      containsStr "started" (restart_decide o).2) := by
  refine ⟨rfl, fun h => ?_, fun h => ?_, fun h => ?_, fun h => ?_⟩
  · rw [restart_decide]
    simp only [ContainerObj.reload, h, reduceIte]
    exact ⟨by trivial, containsStr_append_left _ _ _ (by decide)⟩
  · rw [restart_decide]
    simp only [ContainerObj.reload, h, reduceIte]
    exact ⟨by trivial, containsStr_append_left _ _ _ (by decide)⟩
  · rw [restart_decide]
    rcases h with h | h <;>
      simp only [ContainerObj.reload, h, reduceIte] <;>
      exact ⟨by trivial, containsStr_append_left _ _ _ (by decide)⟩
  · rw [restart_decide]
    obtain ⟨h1, h2, h3, h4⟩ := h
    simp only [ContainerObj.reload, h1, h2, h3, h4, if_neg, reduceIte,
      false_or, or_self, if_false]
    exact ⟨by trivial, containsStr_append_left _ _ _ (by decide)⟩

/-- C2 witness: the theorem applied to a container object whose live status
is `running` but whose cached status is stale. -/
theorem claim_C2_witness :
    (restart_decide ⟨egContainer, "exited"⟩).1 = Action.restart ∧
    containsStr "restarted" (restart_decide ⟨egContainer, "exited"⟩).2 :=
  (claim_C2 ⟨egContainer, "exited"⟩ "whatever").2.2.1 rfl

/-- C3: when no name is supplied, the allocated name is `student_` followed
by the count of all existing containers (stopped ones included) plus one:
`student_1` with zero existing containers, `student_2` with one; and a
successful create response reports exactly that name. -/
theorem claim_C3 (e : Engine) :
    allocated_name e none = "student_" ++ toString (e.containers.length + 1) ∧
    e.listAll.length = e.containers.length ∧
    (e.containers = [] → allocated_name e none = "student_1") ∧
    (e.containers.length = 1 → allocated_name e none = "student_2") ∧
    (∀ newId p e' r, start_container e newId (some (.obj none p)) =
        Except.ok (e', r) → r.success = true →
      r.name = some (allocated_name e none)) := by
  refine ⟨rfl, rfl, fun h => ?_, fun h => ?_, ?_⟩
  · simp only [allocated_name, Engine.listAll, h, Option.getD]
    rfl
  · simp only [allocated_name, Engine.listAll, h, Option.getD]
    rfl
  · intro newId p e' r hok hsucc
    rw [start_container] at hok
    rcases hrun : e.engineRun (allocated_name e none) newId with err | pair
    · rw [hrun] at hok
      simp only [Except.ok.injEq, Prod.mk.injEq] at hok
      rw [← hok.2] at hsucc
      simp at hsucc
    · rw [hrun] at hok
      simp only [Except.ok.injEq, Prod.mk.injEq] at hok
      rw [← hok.2]

/-- C3 witness: the theorem applied at the empty engine. -/
theorem claim_C3_witness : allocated_name ⟨[]⟩ none = "student_1" :=
  (claim_C3 ⟨[]⟩).2.2.1 rfl

/-- C4: the allocated host port is 5050 plus the count of currently running
containers, independent of any `port` field in the request body; against an
empty container set the create succeeds with port 5050 and a url containing
"5050". -/
theorem claim_C4 (e : Engine) (newId : String) (n : Option String)
    (p1 p2 : Option Nat) :
    start_container e newId (some (.obj n p1)) =
      start_container e newId (some (.obj n p2)) ∧
    allocated_port e = 5050 + e.listRunning.length ∧
    (∀ e' r, start_container e newId (some (.obj n p1)) =
        Except.ok (e', r) → r.success = true →
      r.port = some (allocated_port e) ∧
      r.url = some ("http://localhost:" ++ toString (allocated_port e))) ∧
    (e.containers = [] →
      (start_container e newId (some (.obj n p1))).map
          (fun x => ((x.2).success, (x.2).port, (x.2).url)) =
        Except.ok (true, some 5050, some "http://localhost:5050")) ∧
    containsStr "5050" "http://localhost:5050" := by
  refine ⟨rfl, rfl, ?_, fun h => ?_, by decide⟩
  · intro e' r hok hsucc
    rw [start_container] at hok
    rcases hrun : e.engineRun (allocated_name e n) newId with err | pair
    · rw [hrun] at hok
      simp only [Except.ok.injEq, Prod.mk.injEq] at hok
      rw [← hok.2] at hsucc
      simp at hsucc
    · rw [hrun] at hok
      simp only [Except.ok.injEq, Prod.mk.injEq] at hok
      rw [← hok.2]
      exact ⟨rfl, rfl⟩
  · obtain ⟨cs⟩ := e
    simp only [Engine.mk.injEq] at h
    subst h
    rfl

/-- C4 witness: the theorem applied at the empty engine. -/
theorem claim_C4_witness :
    (start_container ⟨[]⟩ "abc123" (some (.obj none (some 9000)))).map
        (fun x => ((x.2).success, (x.2).port, (x.2).url)) =
      Except.ok (true, some 5050, some "http://localhost:5050") :=
  (claim_C4 ⟨[]⟩ "abc123" none (some 9000) none).2.2.2.1 rfl

/-- C5: the restart operation distinguishes its failure categories: a
non-resolving id yields the not-found response with HTTP 404 and its own
text; an inaccessible engine socket yields the permission response with its
own text; any other engine API failure yields the engine-error response
carrying the engine's explanation text; the three texts are pairwise
distinguishable.  The handler maps each failure to exactly one response
(there is no retry path). -/
theorem claim_C5 (e : Engine) (cid : String) (ex : String) :
    (e.get cid = none →
      restart_container e cid = (restart_error_response .notFound, none)) ∧
    (restart_error_response .notFound).httpStatus = 404 ∧
    (restart_error_response .notFound).error =
      some "Container not found. Please refresh list." ∧
    (restart_error_response .permission).error =
      some "Permission denied to access Docker socket." ∧
    (restart_error_response (.apiError ex)).error =
      some ("Docker API error: " ++ ex) ∧
    containsStr ex ("Docker API error: " ++ ex) ∧
    (restart_error_response .notFound).error ≠
      (restart_error_response .permission).error ∧
    (restart_error_response (.apiError ex)).error ≠
      (restart_error_response .notFound).error ∧
    (restart_error_response (.apiError ex)).error ≠
      (restart_error_response .permission).error := by
  refine ⟨fun h => ?_, rfl, rfl, rfl, rfl, containsStr_suffix _ _, by decide,
    ?_, ?_⟩
  · simp [restart_container, h]
  · simp only [restart_error_response, ne_eq, Option.some.injEq]
    exact append_ne_of_head_ne _ ex _ 'D' 'C' _ _ rfl rfl (by decide)
  · simp only [restart_error_response, ne_eq, Option.some.injEq]
    exact append_ne_of_head_ne _ ex _ 'D' 'P' _ _ rfl rfl (by decide)

/-- C5 witness: the theorem applied at the empty engine, where no id
resolves. -/
theorem claim_C5_witness :
    restart_container ⟨[]⟩ "deadbeef" =
      (restart_error_response .notFound, none) :=
  (claim_C5 ⟨[]⟩ "deadbeef" "x").1 rfl

/-- C7: the listing returns one entry per container (stopped ones
included); each entry's image field is the first tag when tags exist,
"untagged" when the tag list is empty and "unknown" when tag resolution
raises; a tag-resolution failure affects only that entry's image field and
never shortens or aborts the listing. -/
theorem claim_C7 (e : Engine) :
    (list_containers e).length = e.containers.length ∧
    (∀ i (h2 : i < e.containers.length)
        (h : i < (list_containers e).length),
      (list_containers e).get ⟨i, h⟩ =
        { id := (e.containers.get ⟨i, h2⟩).shortId
          name := (e.containers.get ⟨i, h2⟩).name
          status := (e.containers.get ⟨i, h2⟩).status
          image := imageName (e.containers.get ⟨i, h2⟩) }) ∧
    (∀ c : DContainer,
      (c.imageTags = none → imageName c = "unknown") ∧
      (c.imageTags = some [] → imageName c = "untagged") ∧
      (∀ t ts, c.imageTags = some (t :: ts) → imageName c = t)) := by
  refine ⟨by simp [list_containers, Engine.listAll], fun i h2 h => ?_,
    fun c => ⟨fun h => by simp [imageName, h], fun h => by simp [imageName, h],
      fun t ts h => by simp [imageName, h]⟩⟩
  simp [list_containers, Engine.listAll, List.get_eq_getElem,
    List.getElem_map]

/-- C7 witness: the theorem applied at a one-container engine whose image
tag resolution raises — the listing still has its entry, degraded to
"unknown". -/
theorem claim_C7_witness :
    (list_containers egBadEngine).get ⟨0, by decide⟩ =
      { id := "bad123", name := "dangling", status := "exited"
        image := "unknown" } := by
  have h := (claim_C7 egBadEngine).2.1 0 (by decide) (by decide)
  rw [h]
  rfl

/-- C8: the remove operation always passes `force = true` to the engine, so
the first remove succeeds regardless of the container's running state
(while a forceless remove of a running container would fail); afterwards
the id no longer resolves, and a second remove of the same identifier fails
with the stringified not-found error, the engine state unchanged by the
second call. -/
theorem claim_C8 (e : Engine) (cid : String) (c : DContainer)
    (hget : e.get cid = some c)
    (huniq : ∀ x ∈ e.containers, x.shortId = cid ∨ x.name = cid → x = c) :
    (remove_container e cid).2.success = true ∧
    (∀ x : DContainer, (e.engineRemove x true).isOk = true) ∧
    (c.status = "running" → (e.engineRemove c false).isOk = false) ∧
    (remove_container e cid).1.get cid = none ∧
    (remove_container (remove_container e cid).1 cid).2.success = false ∧
    (remove_container (remove_container e cid).1 cid).2.error =
      some (pyStr DockerErr.notFound) ∧
    (remove_container (remove_container e cid).1 cid).1 =
      (remove_container e cid).1 := by
  have hrm : remove_container e cid =
      (⟨e.containers.filter (fun x => !(x.shortId == c.shortId))⟩,
       { success := true,
         message := some ("Container " ++ cid ++ " removed") }) := by
    simp [remove_container, hget, Engine.engineRemove]
  have hnone :
      (Engine.mk (e.containers.filter
        (fun x => !(x.shortId == c.shortId)))).get cid = none := by
    rw [Engine.get, List.find?_eq_none]
    intro x hx hpx
    rw [List.mem_filter] at hx
    obtain ⟨hx1, hx2⟩ := hx
    have hx3 : x.shortId = cid ∨ x.name = cid := by
      simpa using hpx
    have hxc := huniq x hx1 hx3
    rw [hxc] at hx2
    simp at hx2
  refine ⟨by rw [hrm], fun x => by simp [Engine.engineRemove, Except.isOk, Except.toBool],
    fun h => ?_, ?_, ?_, ?_, ?_⟩
  · simp [Engine.engineRemove, h, Except.isOk, Except.toBool]
  · rw [hrm]
    exact hnone
  · rw [hrm]
    simp [remove_container, hnone]
  · rw [hrm]
    simp [remove_container, hnone]
  · rw [hrm]
    simp [remove_container, hnone]

/-- C8 witness: the theorem applied at the fixture engine — removing the
running fixture container succeeds, a second remove reports the
stringified not-found error. -/
theorem claim_C8_witness :
    (remove_container egEngine "abc123").2.success = true ∧
    (remove_container (remove_container egEngine "abc123").1
      "abc123").2.success = false := by
  have h := claim_C8 egEngine "abc123" egContainer (by decide)
    (by decide)
  exact ⟨h.1, h.2.2.2.2.1⟩

/-- C9: when the create request's body is absent or not a JSON object, the
name/port computation runs before the `try`/`except` block, so the handler
raises an unhandled exception instead of returning the structured
`{'success': False, 'error': ...}` response used for engine-side
failures. -/
theorem claim_C9 (e : Engine) (newId : String) (body : Option ReqBody)
    (h : body = none ∨ body = some ReqBody.nonObj) :
    start_container e newId body = Except.error () ∧
    ∀ e' r, start_container e newId body ≠ Except.ok (e', r) := by
  rcases h with h | h <;> subst h <;>
    exact ⟨rfl, fun e' r => by simp [start_container]⟩

/-- C9 witness: the theorem applied at the fixture engine with an absent
body. -/
theorem claim_C9_witness :
    start_container egEngine "new456" none = Except.error () :=
  (claim_C9 egEngine "new456" none (Or.inl rfl)).1

/-- C10: for stats, stop and remove every failure — a non-resolving id in
particular — is returned as success `false` with the stringified exception
text and the default HTTP 200 status; only the restart operation maps
not-found to HTTP 404. -/
theorem claim_C10 (e : Engine) (stats : String → StatsSnapshot)
    (cid : String) (h : e.get cid = none) :
    (container_stats e stats cid).httpStatus = 200 ∧
    (container_stats e stats cid).success = false ∧
    (container_stats e stats cid).error = some (pyStr DockerErr.notFound) ∧
    (stop_container e cid).2.httpStatus = 200 ∧
    (stop_container e cid).2.success = false ∧
    (stop_container e cid).2.error = some (pyStr DockerErr.notFound) ∧
    (remove_container e cid).2.httpStatus = 200 ∧
    (remove_container e cid).2.success = false ∧
    (remove_container e cid).2.error = some (pyStr DockerErr.notFound) ∧
    (restart_container e cid).1.httpStatus = 404 := by
  simp [container_stats, stop_container, remove_container,
    restart_container, restart_error_response, h]

/-- C10 witness: the theorem applied at the empty engine. -/
theorem claim_C10_witness :
    (stop_container ⟨[]⟩ "nope").2.httpStatus = 200 ∧
    (restart_container ⟨[]⟩ "nope").1.httpStatus = 404 := by
  have h := claim_C10 ⟨[]⟩ (fun _ => snap50) "nope" rfl
  exact ⟨h.2.2.2.1, h.2.2.2.2.2.2.2.2.2⟩

end ShikshaBox
